import Mathlib

/-
Shallow embedding of the SBDC assessment chatbot backend, translated from
`services.py` (class `AssessmentService`), `schema.py` and the configuration
contract in `config.py`.

Modelling conventions:
* Python floats are modelled as exact rationals (`ℚ`).  All arithmetic the
  service performs (sums of small integers, division by `answered * 4`,
  rounding to two decimals, comparisons against tier bounds) is exact at
  these magnitudes, so `ℚ` is a faithful model.
* `round(x, 2)` is modelled as `round (100 * x) / 100`.  Mathlib's `round`
  rounds half up while CPython rounds half to even; no statement below
  depends on the behaviour at an exact tie, and the spec explicitly allows
  either convention.
* JSON dictionaries are modelled as association lists in insertion order
  (`List (String × _)`), with `List.lookup`; Python's `dict.get(k, d)` is
  `(l.lookup k).getD d`.
* The configuration files (`questions.json`, `rules.json`, `tone.json`,
  `catalyst.json`, `functional_area.json`) are data, not code; every
  definition is parameterised by them.
* The Gemini call `self.model.generate_content(prompt)` together with the
  `response.text` access is an opaque fallible capability, modelled as a
  function `String → Except String String` (`Except.error msg` models a
  raised exception whose `str` is `msg`).
* `random.choice` on a non-empty list is modelled by an injected chooser
  `pick : Nat → List String → Nat` (one draw per loop iteration `i`),
  reduced modulo the list length so that the choice is always an element
  of the list.
-/

/- Data model, from `schema.py`. -/

structure Answer where
  question_id : String
  score : Int
  notes : Option String := none
deriving DecidableEq

structure AssessmentResponse where
  catalyst : String
  answers : List Answer
deriving DecidableEq

structure CategoryScore where
  name : String
  raw_score : ℚ
  normalized_score : ℚ
  tier : String
  questions_answered : Nat
  total_questions : Nat
deriving DecidableEq

structure AssessmentReport where
  category_scores : List (String × CategoryScore)
  overall_score : ℚ
  overall_tier : String
  priority_categories : List String
deriving DecidableEq

/- Question catalog: `questions.json` has shape
   `{"assessment": {area: [{"id": ..., "type": ..., "text": ...}, ...]}}`;
   we model the inner mapping. -/

structure Question where
  id : String
  qtype : String := ""
  text : String := ""
deriving DecidableEq

abbrev Catalog := List (String × List Question)

/- Tier rules: `services.py::_get_tier` reads only
   `rules["tier_boundaries"]["Responding"][1]` and
   `rules["tier_boundaries"]["Building"][1]`. -/

structure TierBounds where
  respondingHigh : ℚ
  buildingHigh : ℚ
deriving DecidableEq

/- The reverse index built in `AssessmentService.__init__`:
   `{q["id"]: area for area, questions in self.questions["assessment"].items() for q in questions}`.
   A Python dict comprehension lets a later binding overwrite an earlier
   one, so the lookup returns the last matching pair. -/

def question_to_area_map (catalog : Catalog) (qid : String) : Option String :=
  ((catalog.flatMap (fun p => p.2.map (fun q => (q.id, p.1)))).reverse).lookup qid

/- Python's `round(x, 2)` on the normalized score. -/

def round2 (x : ℚ) : ℚ := (round (100 * x) : ℤ) / 100

def _get_tier (bounds : TierBounds) (score : ℚ) : String :=
  if score ≤ bounds.respondingHigh then ("Responding")
  else if score ≤ bounds.buildingHigh then ("Building")
  else ("Optimizing")

/- One answer is routed to one area tally when `answer.score >= 0`, the
   reverse index knows its question id, and the looked-up area is truthy
   (Python's `if area:` also rejects the empty string). -/

def routedTo (catalog : Catalog) (area : String) (a : Answer) : Bool :=
  decide (0 ≤ a.score) &&
    (match question_to_area_map catalog a.question_id with
     | some ar => !(ar == "") && (ar == area)
     | none => false)

structure AreaTally where
  total_score : Int
  answered : Nat
  total : Nat
deriving DecidableEq

/- The per-area accumulation loop of `calculate_scores`, expressed as a
   filter: the imperative `+=`/`+= 1` updates commute, so the final tally
   of an area is determined by the sublist of answers routed to it. -/

def areaTallyFor (catalog : Catalog) (answers : List Answer) (e : String × List Question) : AreaTally :=
  let rel := answers.filter (routedTo catalog e.1)
  { total_score := (rel.map (fun a => a.score)).sum
    answered := rel.length
    total := e.2.length }

/- The expression
   `data["total_score"] / (data["answered"] * 4) if data["answered"] > 0 else 0.0`. -/

def areaNorm (d : AreaTally) : ℚ :=
  if d.answered > 0 then (d.total_score : ℚ) / ((d.answered : ℚ) * 4) else 0

/- Full translation of `AssessmentService.calculate_scores`. -/

def calculate_scores (catalog : Catalog) (bounds : TierBounds) (response : AssessmentResponse) : AssessmentReport :=
  let tallies := catalog.map (fun e => (e.1, areaTallyFor catalog response.answers e))
  let category_scores := tallies.map (fun p =>
    (p.1,
      ({ name := p.1
         raw_score := (p.2.total_score : ℚ)
         normalized_score := round2 (areaNorm p.2)
         tier := _get_tier bounds (areaNorm p.2)
         questions_answered := p.2.answered
         total_questions := p.2.total } : CategoryScore)))
  let priority_categories :=
    (tallies.filter (fun p => (["Responding", "Building"] : List String).contains (_get_tier bounds (areaNorm p.2)))).map Prod.fst
  let answeredTallies := tallies.filter (fun p => p.2.answered > 0)
  let total_normalized := (answeredTallies.map (fun p => areaNorm p.2)).sum
  let count := answeredTallies.length
  let overall_score := if count > 0 then round2 (total_normalized / (count : ℚ)) else 0
  let overall_tier := _get_tier bounds overall_score
  { category_scores := category_scores
    overall_score := overall_score
    overall_tier := overall_tier
    priority_categories := priority_categories }

/- Spec-side tier classifier, written from the words of the spec
   ("scan tier boundaries in increasing order of upper bound; return the
   first tier whose upper bound ≥ score; if score exceeds all bounds,
   return the top (best) tier").  Used to compare against `_get_tier`. -/

def classify_tier : List (String × ℚ) → String → ℚ → String
  | [], top, _ => top
  | (tname, bound) :: rest, top, score =>
      if score ≤ bound then tname else classify_tier rest top score

/-- Claim C4: the `_get_tier` utility implements the spec's `classify_tier`:
it returns the first tier, in ascending order of upper bound, whose upper
bound is ≥ the score (so a score exactly at an upper bound classifies into
that lower tier), and a score exceeding all bounds yields "Optimizing". -/
theorem C4_get_tier_scans_ascending_inclusive (b1 b2 score : ℚ) :
    _get_tier ⟨b1, b2⟩ score = classify_tier [("Responding", b1), ("Building", b2)] "Optimizing" score
    ∧ _get_tier ⟨b1, b2⟩ b1 = "Responding"
    ∧ (b1 < b2 → _get_tier ⟨b1, b2⟩ b2 = "Building")
    ∧ (b1 ≤ b2 → b2 < score → _get_tier ⟨b1, b2⟩ score = "Optimizing") := by
  refine ⟨by simp [_get_tier, classify_tier], by simp [_get_tier], ?_, ?_⟩
  · intro h
    simp only [_get_tier, if_neg (not_le.mpr h), if_pos le_rfl]
  · intro hb h
    have h1 : ¬ score ≤ b2 := not_le.mpr h
    have h0 : ¬ score ≤ b1 := not_le.mpr (lt_of_le_of_lt hb h)
    simp only [_get_tier, if_neg h0, if_neg h1]

/-- Witness for C4 at concrete bounds 0 and 1. -/
theorem C4_get_tier_scans_ascending_inclusive_witness :
    _get_tier ⟨(0 : ℚ), 1⟩ 2 = classify_tier [("Responding", 0), ("Building", 1)] "Optimizing" 2
    ∧ _get_tier ⟨(0 : ℚ), 1⟩ 0 = "Responding"
    ∧ _get_tier ⟨(0 : ℚ), 1⟩ 1 = "Building"
    ∧ _get_tier ⟨(0 : ℚ), 1⟩ 2 = "Optimizing" :=
  ⟨(C4_get_tier_scans_ascending_inclusive 0 1 2).1,
   (C4_get_tier_scans_ascending_inclusive 0 1 2).2.1,
   (C4_get_tier_scans_ascending_inclusive 0 1 2).2.2.1 zero_lt_one,
   (C4_get_tier_scans_ascending_inclusive 0 1 2).2.2.2 zero_le_one one_lt_two⟩

/- Helper: the shape of the per-area output of `calculate_scores`. -/

theorem calculate_scores_category_scores (catalog : Catalog) (bounds : TierBounds) (resp : AssessmentResponse) :
    (calculate_scores catalog bounds resp).category_scores
    = catalog.map (fun e =>
        (e.1,
          ({ name := e.1
             raw_score := ((areaTallyFor catalog resp.answers e).total_score : ℚ)
             normalized_score := round2 (areaNorm (areaTallyFor catalog resp.answers e))
             tier := _get_tier bounds (areaNorm (areaTallyFor catalog resp.answers e))
             questions_answered := (areaTallyFor catalog resp.answers e).answered
             total_questions := (areaTallyFor catalog resp.answers e).total } : CategoryScore))) := by
  simp [calculate_scores]

theorem calculate_scores_priority_categories (catalog : Catalog) (bounds : TierBounds) (resp : AssessmentResponse) :
    (calculate_scores catalog bounds resp).priority_categories
    = (catalog.filter (fun e =>
        (["Responding", "Building"] : List String).contains
          (_get_tier bounds (areaNorm (areaTallyFor catalog resp.answers e))))).map Prod.fst := by
  simp [calculate_scores, List.filter_map]
  rfl

/- The normalized score reconstructed, before rounding, from the fields a
   `CategoryScore` reports (`raw_score / (questions_answered * 4)`). -/

def unrounded_norm (c : CategoryScore) : ℚ :=
  if c.questions_answered > 0 then c.raw_score / ((c.questions_answered : ℚ) * 4) else 0

/-- Claim C1 (amended): for every area, the recorded tier is `_get_tier`
applied to the normalized score BEFORE rounding (reconstructible as
`raw_score / (questions_answered * 4)`), while the reported
`normalized_score` is that value rounded to 2 decimals; the tier is NOT
classified from the rounded value. -/
theorem C1_tier_classified_before_rounding (catalog : Catalog) (bounds : TierBounds) (resp : AssessmentResponse) :
    ((calculate_scores catalog bounds resp).category_scores.all (fun p =>
      decide (p.2.tier = _get_tier bounds (unrounded_norm p.2)) &&
      decide (p.2.normalized_score = round2 (unrounded_norm p.2)))) = true := by
  rw [List.all_eq_true]
  intro p hp
  rw [calculate_scores_category_scores] at hp
  rw [List.mem_map] at hp
  obtain ⟨e, he, rfl⟩ := hp
  simp [unrounded_norm, areaNorm]

/- Concrete scoring call refuting C1 as stated: three answers scoring
   1, 1, 2 in a four-question area give 4/12 = 1/3, which rounds to 0.33;
   with boundaries 0.33 / 0.66 the code records tier "Building" (from the
   raw 1/3) although `classify_tier` of the reported 0.33 is "Responding". -/

def exQsC1 : List Question :=
  [{ id := "q1" }, { id := "q2" }, { id := "q3" }, { id := "q4" }]

def exCatalogC1 : Catalog := [("Financials", exQsC1)]

def exBoundsC1 : TierBounds := { respondingHigh := 33/100, buildingHigh := 66/100 }

def exRespC1 : AssessmentResponse :=
  { catalyst := "Crisis"
    answers := [{ question_id := "q1", score := 1 },
                { question_id := "q2", score := 1 },
                { question_id := "q3", score := 2 }] }

/-- Counterexample to claim C1 as stated: in this scoring call the recorded
tier is "Building", but `classify_tier` applied to the rounded
`normalized_score` reported in the same `CategoryScore` yields "Responding". -/
theorem C1_counterexample :
    ((calculate_scores exCatalogC1 exBoundsC1 exRespC1).category_scores.map (fun p => p.2.tier)
      = ["Building"])
    ∧ ((calculate_scores exCatalogC1 exBoundsC1 exRespC1).category_scores.map
        (fun p => _get_tier exBoundsC1 p.2.normalized_score)
      = ["Responding"]) := by
  have htal : areaTallyFor [("Financials", exQsC1)] exRespC1.answers ("Financials", exQsC1)
      = ⟨4, 3, 4⟩ := by decide
  have hnorm : areaNorm (⟨4, 3, 4⟩ : AreaTally) = 1/3 := by
    rw [areaNorm]; norm_num
  have hr : round2 (1/3 : ℚ) = 33/100 := by
    rw [round2, show (100 : ℚ) * (1/3) = 100/3 by norm_num, round_eq]
    norm_num [Int.floor_eq_iff]
  have ht1 : _get_tier exBoundsC1 (1/3) = "Building" := by
    rw [_get_tier, exBoundsC1]
    norm_num
  have ht2 : _get_tier exBoundsC1 (33/100) = "Responding" := by
    rw [_get_tier, exBoundsC1]
    norm_num
  constructor
  · rw [calculate_scores_category_scores]
    simp only [exCatalogC1, List.map_cons, List.map_nil, htal, hnorm, ht1]
  · rw [calculate_scores_category_scores]
    simp only [exCatalogC1, List.map_cons, List.map_nil, htal, hnorm, hr, ht2]

/- Helper facts about the 2-decimal rounding. -/

theorem round_rat_mono {x y : ℚ} (h : x ≤ y) : round x ≤ round y := by
  rw [round_eq, round_eq]
  exact Int.floor_mono (by linarith)

theorem round2_mono {x y : ℚ} (h : x ≤ y) : round2 x ≤ round2 y := by
  rw [round2, round2]
  have h1 : round (100 * x) ≤ round (100 * y) := round_rat_mono (by linarith)
  have h2 : ((round (100 * x) : ℤ) : ℚ) ≤ ((round (100 * y) : ℤ) : ℚ) := by exact_mod_cast h1
  linarith

theorem round2_zero : round2 (0 : ℚ) = 0 := by
  rw [round2]
  simp

theorem round2_one : round2 (1 : ℚ) = 1 := by
  rw [round2]
  norm_num

theorem round2_nonneg {x : ℚ} (h : 0 ≤ x) : 0 ≤ round2 x := by
  have h0 : round2 0 ≤ round2 x := round2_mono h
  rw [round2_zero] at h0
  exact h0

theorem round2_le_one {x : ℚ} (h : x ≤ 1) : round2 x ≤ 1 := by
  have h0 : round2 x ≤ round2 1 := round2_mono h
  rw [round2_one] at h0
  exact h0

/- Helper: bounds on an area tally when every submitted score is in [0,4]. -/

theorem areaTallyFor_bounds (catalog : Catalog) (answers : List Answer) (e : String × List Question)
    (hval : ∀ a ∈ answers, 0 ≤ a.score ∧ a.score ≤ 4) :
    0 ≤ (areaTallyFor catalog answers e).total_score
    ∧ (areaTallyFor catalog answers e).total_score ≤ ((areaTallyFor catalog answers e).answered : ℤ) * 4 := by
  rw [areaTallyFor]
  constructor
  · apply List.sum_nonneg
    intro x hx
    rw [List.mem_map] at hx
    obtain ⟨a, ha, rfl⟩ := hx
    exact (hval a (List.mem_of_mem_filter ha)).1
  · have h := List.sum_le_card_nsmul ((answers.filter (routedTo catalog e.1)).map (fun a => a.score)) 4 ?_
    · rw [List.length_map] at h
      simpa [nsmul_eq_mul] using h
    · intro x hx
      rw [List.mem_map] at hx
      obtain ⟨a, ha, rfl⟩ := hx
      exact (hval a (List.mem_of_mem_filter ha)).2

theorem areaNorm_unit_interval (catalog : Catalog) (answers : List Answer) (e : String × List Question)
    (hval : ∀ a ∈ answers, 0 ≤ a.score ∧ a.score ≤ 4) :
    0 ≤ areaNorm (areaTallyFor catalog answers e) ∧ areaNorm (areaTallyFor catalog answers e) ≤ 1 := by
  obtain ⟨hlow, hhigh⟩ := areaTallyFor_bounds catalog answers e hval
  set t := areaTallyFor catalog answers e with ht
  rw [areaNorm]
  by_cases hA : t.answered > 0
  · rw [if_pos hA]
    have hden : (0 : ℚ) < (t.answered : ℚ) * 4 := by
      have : (0 : ℚ) < (t.answered : ℚ) := by exact_mod_cast hA
      linarith
    constructor
    · apply div_nonneg _ (le_of_lt hden)
      exact_mod_cast hlow
    · rw [div_le_one hden]
      have : ((t.total_score : ℤ) : ℚ) ≤ (((t.answered : ℤ) * 4 : ℤ) : ℚ) := by exact_mod_cast hhigh
      push_cast at this
      linarith
  · rw [if_neg hA]
    norm_num

/-- Claim C6: when every submitted answer score lies in [0,4] (the validated
input precondition from `schema.py`), every `CategoryScore` produced by
`calculate_scores` has `normalized_score` in [0,1] and
`raw_score ≤ questions_answered * 4`. -/
theorem C6_normalized_score_in_unit_interval (catalog : Catalog) (bounds : TierBounds)
    (resp : AssessmentResponse) (hval : ∀ a ∈ resp.answers, 0 ≤ a.score ∧ a.score ≤ 4) :
    ((calculate_scores catalog bounds resp).category_scores.all (fun p =>
      decide (0 ≤ p.2.normalized_score) && decide (p.2.normalized_score ≤ 1) &&
      decide (p.2.raw_score ≤ (p.2.questions_answered : ℚ) * 4))) = true := by
  rw [List.all_eq_true]
  intro p hp
  rw [calculate_scores_category_scores, List.mem_map] at hp
  obtain ⟨e, he, rfl⟩ := hp
  obtain ⟨hn0, hn1⟩ := areaNorm_unit_interval catalog resp.answers e hval
  obtain ⟨hlow, hhigh⟩ := areaTallyFor_bounds catalog resp.answers e hval
  simp only [Bool.and_eq_true, decide_eq_true_iff]
  refine ⟨⟨round2_nonneg hn0, round2_le_one hn1⟩, ?_⟩
  have : (((areaTallyFor catalog resp.answers e).total_score : ℤ) : ℚ)
      ≤ ((((areaTallyFor catalog resp.answers e).answered : ℤ) * 4 : ℤ) : ℚ) := by exact_mod_cast hhigh
  push_cast at this
  exact this

/-- Witness for C6: the concrete scoring call from the C1 data satisfies the
precondition and hence the invariant. -/
theorem C6_normalized_score_in_unit_interval_witness :
    ((calculate_scores exCatalogC1 exBoundsC1 exRespC1).category_scores.all (fun p =>
      decide (0 ≤ p.2.normalized_score) && decide (p.2.normalized_score ≤ 1) &&
      decide (p.2.raw_score ≤ (p.2.questions_answered : ℚ) * 4))) = true :=
  C6_normalized_score_in_unit_interval exCatalogC1 exBoundsC1 exRespC1 (by decide)

/-- Claim C10: every catalog area appears in `category_scores` (in catalog
order) even when no answer routes to it; such an area gets raw score 0,
normalized score 0, the lowest tier "Responding" (given the lowest upper
bound is ≥ 0), and is listed in `priority_categories`; in particular a fully
unanswered submission lists every catalog area as a priority category. -/
theorem C10_unanswered_areas_lowest_tier (catalog : Catalog) (bounds : TierBounds)
    (resp : AssessmentResponse) (hb : 0 ≤ bounds.respondingHigh) :
    ((calculate_scores catalog bounds resp).category_scores.map Prod.fst = catalog.map Prod.fst)
    ∧ (((calculate_scores catalog bounds resp).category_scores.all (fun p =>
        !(resp.answers.filter (routedTo catalog p.1)).isEmpty ||
        (decide (p.2.raw_score = 0) && decide (p.2.normalized_score = 0) &&
         (p.2.tier == "Responding") &&
         (calculate_scores catalog bounds resp).priority_categories.contains p.1))) = true)
    ∧ (resp.answers = [] →
        (calculate_scores catalog bounds resp).priority_categories = catalog.map Prod.fst) := by
  refine ⟨?_, ?_, ?_⟩
  · rw [calculate_scores_category_scores, List.map_map]
    rfl
  · rw [List.all_eq_true]
    intro p hp
    rw [calculate_scores_category_scores, List.mem_map] at hp
    obtain ⟨e, he, rfl⟩ := hp
    by_cases hfe : (resp.answers.filter (routedTo catalog e.1)).isEmpty
    · rw [Bool.or_eq_true]
      right
      rw [List.isEmpty_iff] at hfe
      have htal : areaTallyFor catalog resp.answers e = ⟨0, 0, e.2.length⟩ := by
        rw [areaTallyFor]
        simp [hfe]
      have hnorm : areaNorm (areaTallyFor catalog resp.answers e) = 0 := by
        rw [htal, areaNorm]
        norm_num
      have htier : _get_tier bounds (areaNorm (areaTallyFor catalog resp.answers e)) = "Responding" := by
        rw [hnorm, _get_tier, if_pos hb]
      simp only [Bool.and_eq_true, decide_eq_true_iff, beq_iff_eq]
      refine ⟨⟨⟨?_, ?_⟩, htier⟩, ?_⟩
      · rw [htal]
        norm_num
      · rw [hnorm, round2_zero]
      · rw [calculate_scores_priority_categories]
        have hmem : e.1 ∈ (catalog.filter (fun e =>
            (["Responding", "Building"] : List String).contains
              (_get_tier bounds (areaNorm (areaTallyFor catalog resp.answers e))))).map Prod.fst := by
          rw [List.mem_map]
          refine ⟨e, List.mem_filter.mpr ⟨he, ?_⟩, rfl⟩
          rw [htier]
          rfl
        exact List.elem_eq_true_of_mem hmem
    · rw [Bool.or_eq_true]
      left
      simp [hfe]
  · intro h
    rw [calculate_scores_priority_categories]
    rw [h]
    simp [areaTallyFor, areaNorm, _get_tier, hb]

/-- Witness for C10 at a concrete catalog, bounds with lowest upper bound 0,
and an empty submission. -/
theorem C10_unanswered_areas_lowest_tier_witness :
    (((calculate_scores exCatalogC1 ⟨0, 1⟩ ⟨"Crisis", []⟩).category_scores.map Prod.fst
        = exCatalogC1.map Prod.fst)
    ∧ (((calculate_scores exCatalogC1 ⟨0, 1⟩ ⟨"Crisis", []⟩).category_scores.all (fun p =>
        !((([] : List Answer)).filter (routedTo exCatalogC1 p.1)).isEmpty ||
        (decide (p.2.raw_score = 0) && decide (p.2.normalized_score = 0) &&
         (p.2.tier == "Responding") &&
         (calculate_scores exCatalogC1 ⟨0, 1⟩ ⟨"Crisis", []⟩).priority_categories.contains p.1))) = true)
    ∧ ((calculate_scores exCatalogC1 ⟨0, 1⟩ ⟨"Crisis", []⟩).priority_categories
        = exCatalogC1.map Prod.fst)) :=
  ⟨(C10_unanswered_areas_lowest_tier exCatalogC1 ⟨0, 1⟩ ⟨"Crisis", []⟩ le_rfl).1,
   (C10_unanswered_areas_lowest_tier exCatalogC1 ⟨0, 1⟩ ⟨"Crisis", []⟩ le_rfl).2.1,
   (C10_unanswered_areas_lowest_tier exCatalogC1 ⟨0, 1⟩ ⟨"Crisis", []⟩ le_rfl).2.2 rfl⟩

/-- Claim C8: answers whose question id is not in the catalog are silently
ignored: the whole report equals the report computed from the submission
with those unknown-id answers removed. -/
theorem C8_unknown_question_ids_ignored (catalog : Catalog) (bounds : TierBounds) (c : String)
    (answers : List Answer) :
    calculate_scores catalog bounds ⟨c, answers⟩
    = calculate_scores catalog bounds
        ⟨c, answers.filter (fun a => (question_to_area_map catalog a.question_id).isSome)⟩ := by
  have hfil : ∀ area : String,
      (answers.filter (fun a => (question_to_area_map catalog a.question_id).isSome)).filter
        (routedTo catalog area)
      = answers.filter (routedTo catalog area) := by
    intro area
    rw [List.filter_filter]
    apply List.filter_congr
    intro a _
    cases hq : question_to_area_map catalog a.question_id <;> simp [routedTo, hq]
  have htal : ∀ e : String × List Question,
      areaTallyFor catalog
        (answers.filter (fun a => (question_to_area_map catalog a.question_id).isSome)) e
      = areaTallyFor catalog answers e := by
    intro e
    rw [areaTallyFor, areaTallyFor, hfil e.1]
  simp only [calculate_scores, htal]

/- Helper: the normalized score is monotone in the total when the answered
   count is unchanged. -/

theorem areaNorm_mono (t1 t2 : AreaTally) (hA : t1.answered = t2.answered)
    (hT : t1.total_score ≤ t2.total_score) : areaNorm t1 ≤ areaNorm t2 := by
  rw [areaNorm, areaNorm, ← hA]
  by_cases h : t1.answered > 0
  · rw [if_pos h, if_pos h]
    have hden : (0 : ℚ) < (t1.answered : ℚ) * 4 := by
      have : (0 : ℚ) < (t1.answered : ℚ) := by exact_mod_cast h
      linarith
    rw [div_le_div_iff₀ hden hden]
    have hc : ((t1.total_score : ℤ) : ℚ) ≤ ((t2.total_score : ℤ) : ℚ) := by exact_mod_cast hT
    exact mul_le_mul_of_nonneg_right hc hden.le
  · rw [if_neg h, if_neg h]

/-- Claim C7: increasing one answer's score (same question id, all other
answers held fixed, scores within the validated range) never decreases any
area's reported `normalized_score` — in particular not the one of the area
the question belongs to. -/
theorem C7_single_score_increase_monotone (catalog : Catalog) (bounds : TierBounds) (c : String)
    (pre post : List Answer) (a : Answer) (s2 : Int)
    (h0 : 0 ≤ a.score) (hlt : a.score < s2) (h4 : s2 ≤ 4) :
    List.Forall₂ (fun p q : String × CategoryScore => p.2.normalized_score ≤ q.2.normalized_score)
      (calculate_scores catalog bounds ⟨c, pre ++ a :: post⟩).category_scores
      (calculate_scores catalog bounds ⟨c, pre ++ { a with score := s2 } :: post⟩).category_scores := by
  rw [calculate_scores_category_scores, calculate_scores_category_scores]
  rw [List.forall₂_map_left_iff, List.forall₂_map_right_iff]
  rw [List.forall₂_same]
  intro e he
  apply round2_mono
  have hma : routedTo catalog e.1 { a with score := s2 } = routedTo catalog e.1 a := by
    rw [routedTo, routedTo]
    have d1 : decide (0 ≤ a.score) = true := decide_eq_true h0
    have d2 : decide (0 ≤ ({ a with score := s2 } : Answer).score) = true :=
      decide_eq_true (le_of_lt (lt_of_le_of_lt h0 hlt))
    rw [d1, d2]
  by_cases hp : routedTo catalog e.1 a = true
  · apply areaNorm_mono
    · rw [areaTallyFor, areaTallyFor]
      simp [List.filter_append, List.filter_cons, hma, hp]
    · rw [areaTallyFor, areaTallyFor]
      simp only [List.filter_append, List.filter_cons, hma, hp, if_true,
        List.map_append, List.sum_append, List.map_cons, List.sum_cons]
      omega
  · apply areaNorm_mono
    · rw [areaTallyFor, areaTallyFor]
      simp [List.filter_append, List.filter_cons, hma, hp]
    · rw [areaTallyFor, areaTallyFor]
      simp [List.filter_append, List.filter_cons, hma, hp]

/-- Witness for C7: raising the single answered score from 1 to 3 in the
concrete catalog. -/
theorem C7_single_score_increase_monotone_witness :
    List.Forall₂ (fun p q : String × CategoryScore => p.2.normalized_score ≤ q.2.normalized_score)
      (calculate_scores exCatalogC1 exBoundsC1
        ⟨"Crisis", [{ question_id := "q1", score := 1 }]⟩).category_scores
      (calculate_scores exCatalogC1 exBoundsC1
        ⟨"Crisis", [{ question_id := "q1", score := 3 }]⟩).category_scores :=
  C7_single_score_increase_monotone exCatalogC1 exBoundsC1 ("Crisis") [] []
    { question_id := "q1", score := 1 } 3 (by decide) (by decide) (by decide)

/- Recommendation prompt builder, translated from
   `AssessmentService.generate_recommendations`.  Configuration tables are
   the JSON files loaded by `config.py` (`tone.json`, `functional_area.json`,
   `catalyst.json`, `rules.json`). -/

structure RecItem where
  recommendation : String
  tone_focus : Option String := none
deriving DecidableEq

structure CatalystInfo where
  definition : Option String := none
  primary_focus_areas : Option (List String) := none
deriving DecidableEq

abbrev ToneMatrix := List (String × List (String × List String))

abbrev FunctionalAreas := List (String × List (String × List (String × List RecItem)))

structure BuilderConfig where
  tone_matrix : ToneMatrix
  functional_areas : FunctionalAreas
  catalysts : List (String × CatalystInfo)
  whole_business_summaries : List (String × String)

/- `catalyst_key = catalyst.replace(" ", "_")`: the pattern is a single
   character, so character-wise mapping is an exact model. -/

def catalystKey (catalyst : String) : String :=
  ⟨catalyst.data.map (fun ch => if ch = ' ' then '_' else ch)⟩

/- `tier_key = "Responding" if result.overall_tier == "Responding" else
   "Building_Phase" if result.overall_tier == "Building" else "Optimizing"`.
   Note: this is derived from the report's OVERALL tier. -/

def tierKeyOf (overall_tier : String) : String :=
  if overall_tier == "Responding" then ("Responding")
  else if overall_tier == "Building" then ("Building_Phase")
  else ("Optimizing")

/- `area.replace("_", " & ")`: again a single-character pattern. -/

def areaDisplay (area : String) : String :=
  ⟨area.data.flatMap (fun ch => if ch = '_' then (" & ").data else [ch])⟩

def general_intros_key : String := "general_intros"

/- The three tone-lookup lines of the per-area loop:
   `tier_intros = config.tone_matrix.get(tier, {})`
   `catalyst_intros = tier_intros.get(catalyst, tier_intros.get("general_intros", [""]))`
   `intro = random.choice(catalyst_intros) if catalyst_intros else ""`. -/

def introFor (tone_matrix : ToneMatrix) (pick : Nat → List String → Nat) (i : Nat)
    (tier catalyst : String) : String :=
  let tier_intros := (tone_matrix.lookup tier).getD []
  let catalyst_intros :=
    (tier_intros.lookup catalyst).getD ((tier_intros.lookup general_intros_key).getD [""])
  if catalyst_intros.isEmpty then ("")
  else catalyst_intros.getD (pick i catalyst_intros % catalyst_intros.length) ""

/- `config.functional_areas.get(tier_key, {}).get(catalyst_key, {}).get(area, [])`. -/

def detailedDataFor (functional_areas : FunctionalAreas) (tier_key catalyst_key area : String) :
    List RecItem :=
  (((((functional_areas.lookup tier_key).getD []).lookup catalyst_key).getD []).lookup area).getD []

/- `"\n".join(f"  {j+1}. {rec['recommendation']}" for j, rec in enumerate(detailed_data[:3]))`. -/

def numberedRecLines : Nat → List RecItem → List String
  | _, [] => []
  | j, r :: rest =>
      ("  " ++ toString (j + 1) ++ ". " ++ r.recommendation) :: numberedRecLines (j + 1) rest

def sepLine : String := String.mk (List.replicate 80 '─')

def nl : String := "\n"

def no_data_sentence (tier catalyst : String) : String :=
  "Provide 3 practical recommendations for this area based on the " ++ tier ++
    " tier and " ++ catalyst ++ " context."

/- One iteration of the per-area loop (grounded branch when `detailed_data`
   is non-empty, otherwise the no-snippet branch). -/

def area_section (cfg : BuilderConfig) (pick : Nat → List String → Nat)
    (catalyst tier_key : String) (i : Nat) (cat : CategoryScore) : String :=
  let tier := cat.tier
  let area := cat.name
  let intro := introFor cfg.tone_matrix pick i tier catalyst
  let detailed_data := detailedDataFor cfg.functional_areas tier_key (catalystKey catalyst) area
  if detailed_data.isEmpty then
    "### " ++ toString i ++ ". " ++ areaDisplay area ++
      "\n\n**Opening Statement (use this exactly):** " ++ intro ++ "\n\n" ++
      no_data_sentence tier catalyst ++
      " Each recommendation should be a 2-3 sentence paragraph.\n" ++ sepLine ++ "\n"
  else
    "### " ++ toString i ++ ". " ++ areaDisplay area ++
      "\n\n**Opening Statement (use this exactly):** " ++ intro ++
      "\n\n**Base Your Advice On These Core Recommendations:**\n" ++
      String.intercalate nl (numberedRecLines 0 (detailed_data.take 3)) ++
      "\n\n**Instructions:** Expand each recommendation above into a 2-3 sentence paragraph. " ++
      "Each paragraph should naturally explain the specific action, its business impact, " ++
      "and a concrete first step—but without using those as headings. " ++
      "Write in a conversational but professional tone. Keep it concise and actionable.\n" ++
      sepLine ++ "\n"

/- `for i, cat in enumerate(sorted_areas, 1): prompt_parts.append(...)`. -/

def sectionsFrom (cfg : BuilderConfig) (pick : Nat → List String → Nat)
    (catalyst tier_key : String) : Nat → List CategoryScore → List String
  | _, [] => []
  | i, cat :: rest =>
      area_section cfg pick catalyst tier_key i cat ::
        sectionsFrom cfg pick catalyst tier_key (i + 1) rest

/- `sorted(result.category_scores.values(), key=lambda c: c.normalized_score)`:
   CPython's sort is a stable sort on the key; a stable sort by a total
   preorder has a unique result, so insertion sort models it exactly. -/

def scoreLE (a b : CategoryScore) : Prop := a.normalized_score ≤ b.normalized_score

instance : DecidableRel scoreLE :=
  fun a b => inferInstanceAs (Decidable (a.normalized_score ≤ b.normalized_score))

instance : IsTotal CategoryScore scoreLE :=
  ⟨fun a b => le_total a.normalized_score b.normalized_score⟩

instance : IsTrans CategoryScore scoreLE :=
  ⟨fun _ _ _ h1 h2 => le_trans h1 h2⟩

def sorted_areas (result : AssessmentReport) : List CategoryScore :=
  List.insertionSort scoreLE (result.category_scores.map Prod.snd)

def numberedFocus : Nat → List String → List String
  | _, [] => []
  | i, f :: rest => (toString i ++ ". " ++ f) :: numberedFocus (i + 1) rest

def headerParts (catalyst catalyst_definition diagnosis : String) : List String :=
  ["You are an experienced small business advisor with expertise across retail, service, manufacturing, and professional services.",
   "",
   "## BUSINESS CONTEXT:",
   "**Current Situation:** " ++ catalyst,
   "**What This Means:** " ++ catalyst_definition,
   "**Overall Business State:** " ++ diagnosis,
   "",
   "## KEY PRIORITIES FOR THIS SITUATION:"]

def guidelineParts : List String :=
  ["",
   "## CRITICAL WRITING GUIDELINES:",
   "**DO NOT:**",
   "- Use phrases like \x27Of course\x27, \x27Here are\x27, or other unnecessary preambles",
   "- Use headings like \x27WHAT to do\x27, \x27WHY it matters\x27, \x27HOW to start\x27",
   "- Show scores or tier levels to the user (e.g., \x27(Current Score: 0.50 - Building)\x27)",
   "- Use bullet points with • symbols",
   "",
   "**DO:**",
   "- Start each functional area directly with the opening statement provided",
   "- Write each recommendation as a cohesive 2-3 sentence paragraph",
   "- Naturally integrate what to do, why it matters, and how to start within the paragraph flow",
   "- Use plain, conversational language at 8th-grade reading level",
   "- Define business terms in parentheses when first used",
   "- Keep total length: 150-200 words per functional area",
   "",
   "## FUNCTIONAL AREA RECOMMENDATIONS:",
   "You must provide recommendations for ALL 6 functional areas in this exact order: Customers_Marketing, Employees, Financials, Leadership, Operations, Products_Services ",
   ""]

def footerParts : List String :=
  ["",
   "## FORMATTING REQUIREMENTS:",
   "- Use clear headings for each functional area (e.g., \x271. Financials\x27, \x272. Operations\x27)",
   "- Number your recommendations (1, 2, 3) within each area",
   "- Write each recommendation as a cohesive paragraph, NOT bullet points",
   "- Use **bold** sparingly for key terms only",
   "- Do NOT show scores or tier information",
   "",
   "## LENGTH REQUIREMENT:",
   "- Total response: 1,200 - 1,500 words",
   "- Each functional area: 150-200 words (roughly 3 paragraphs of 2-3 sentences each)",
   "",
   "Begin your recommendations now, starting directly with the first functional area:"]

def na_definition : String := "No definition available."

def evolving_default : String := "Your business is evolving."

/- Deterministic prompt assembly of `generate_recommendations` (everything
   up to the Gemini call), with the per-iteration random draw injected as
   `pick`. -/

def build_prompt (cfg : BuilderConfig) (pick : Nat → List String → Nat)
    (result : AssessmentReport) (catalyst : String) : String :=
  let tier_key := tierKeyOf result.overall_tier
  let catalyst_info := (cfg.catalysts.lookup catalyst).getD {}
  let catalyst_definition := catalyst_info.definition.getD na_definition
  let focus_areas := catalyst_info.primary_focus_areas.getD []
  let diagnosis :=
    (cfg.whole_business_summaries.lookup ("Mostly " ++ result.overall_tier)).getD evolving_default
  String.intercalate nl
    (headerParts catalyst catalyst_definition diagnosis
      ++ numberedFocus 1 (focus_areas.take 5)
      ++ guidelineParts
      ++ sectionsFrom cfg pick catalyst tier_key 1 (sorted_areas result)
      ++ footerParts)

/- The full `generate_recommendations`: `generate_content` models the call
   `self.model.generate_content(prompt, generation_config=...)` together
   with the `response.text` access; `Except.error msg` models a raised
   exception with `str(e) = msg`; the `except Exception` branch returns the
   error string. -/

def generate_recommendations (cfg : BuilderConfig) (pick : Nat → List String → Nat)
    (generate_content : String → Except String String)
    (result : AssessmentReport) (catalyst : String) : String :=
  match generate_content (build_prompt cfg pick result catalyst) with
  | Except.ok text => text
  | Except.error e => "Error generating recommendations: " ++ e

/- Claim C3 data: a tone matrix that has an entry for "Responding" (with a
   generic introduction list) but no entry at all for "Building". -/

def toneMissingBuilding : ToneMatrix :=
  [("Responding", [("general_intros", ["We will start with the basics."])])]

/-- Claim C3 (code bug): when an area's tier is missing from the tone matrix
entirely, the per-area tone lookup silently produces the empty opening
statement — it does not raise, contrary to the spec's stated fail-loudly
requirement.  (The other half of the claim is accurate: a tier that is
present but lacks the catalyst falls back to the tier's generic
introduction list without raising, second conjunct.) -/
theorem C3_missing_tier_empty_intro_not_raise (pick : Nat → List String → Nat) (i : Nat) :
    introFor toneMissingBuilding pick i ("Building") ("Crisis") = ""
    ∧ introFor toneMissingBuilding pick i ("Responding") ("Crisis")
      = "We will start with the basics." := by
  constructor
  · rw [introFor]
    simp [toneMissingBuilding, List.lookup, general_intros_key, Nat.mod_one]
  · rw [introFor]
    simp [toneMissingBuilding, List.lookup, general_intros_key, Nat.mod_one]

/-- Claim C9: if the external text-generation call raises (modelled as
`Except.error msg`), `generate_recommendations` returns the descriptive
error string carrying the exception message — the message is a suffix of
the returned string — instead of propagating the failure. -/
theorem C9_generation_failure_returns_error_string (cfg : BuilderConfig)
    (pick : Nat → List String → Nat) (generate_content : String → Except String String)
    (result : AssessmentReport) (catalyst msg : String)
    (herr : generate_content (build_prompt cfg pick result catalyst) = Except.error msg) :
    generate_recommendations cfg pick generate_content result catalyst
      = "Error generating recommendations: " ++ msg
    ∧ msg.data <:+ (generate_recommendations cfg pick generate_content result catalyst).data := by
  have h : generate_recommendations cfg pick generate_content result catalyst
      = "Error generating recommendations: " ++ msg := by
    rw [generate_recommendations, herr]
  refine ⟨h, ?_⟩
  rw [h, String.data_append]
  exact List.suffix_append _ _

def emptyBuilderConfig : BuilderConfig := ⟨[], [], [], []⟩

def emptyReport : AssessmentReport := ⟨[], 0, "Optimizing", []⟩

/-- Witness for C9: a generator that always raises with message
"quota exceeded". -/
theorem C9_generation_failure_returns_error_string_witness :
    generate_recommendations emptyBuilderConfig (fun _ _ => 0)
        (fun _ => Except.error ("quota exceeded")) emptyReport ("Crisis")
      = "Error generating recommendations: " ++ "quota exceeded"
    ∧ ("quota exceeded").data <:+
        (generate_recommendations emptyBuilderConfig (fun _ _ => 0)
          (fun _ => Except.error ("quota exceeded")) emptyReport ("Crisis")).data :=
  C9_generation_failure_returns_error_string emptyBuilderConfig (fun _ _ => 0)
    (fun _ => Except.error ("quota exceeded")) emptyReport ("Crisis") ("quota exceeded") rfl

/- Stability of the insertion sort used to model CPython's stable sort:
   filtering the sorted list down to any fixed key value yields exactly the
   filtration of the input, i.e. equal-key elements keep their input order. -/

theorem filter_key_orderedInsert (k : ℚ) (a : CategoryScore) (l : List CategoryScore) :
    (List.orderedInsert scoreLE a l).filter (fun c => decide (c.normalized_score = k))
    = ((a :: l).filter (fun c => decide (c.normalized_score = k))) := by
  induction l with
  | nil => rfl
  | cons b t ih =>
      rw [List.orderedInsert]
      by_cases h : scoreLE a b
      · rw [if_pos h]
      · rw [if_neg h]
        by_cases ha : a.normalized_score = k
        · have hb : ¬ b.normalized_score = k := by
            intro hbk
            exact h (le_of_eq (by rw [ha, hbk]))
          rw [List.filter_cons, List.filter_cons, ih, List.filter_cons, List.filter_cons]
          simp [ha, hb]
        · rw [List.filter_cons, List.filter_cons, ih, List.filter_cons, List.filter_cons]
          simp [ha]

theorem insertionSort_filter_key (k : ℚ) (l : List CategoryScore) :
    (List.insertionSort scoreLE l).filter (fun c => decide (c.normalized_score = k))
    = l.filter (fun c => decide (c.normalized_score = k)) := by
  induction l with
  | nil => rfl
  | cons a t ih =>
      rw [List.insertionSort, filter_key_orderedInsert, List.filter_cons, List.filter_cons, ih]

/- Claim C5 data: the spec's example scores 0.8, 0.2, 0.5 in catalog order. -/

def csWith (nm : String) (q : ℚ) : CategoryScore :=
  { name := nm, raw_score := 0, normalized_score := q, tier := "Building",
    questions_answered := 1, total_questions := 1 }

def exReportC5 : AssessmentReport :=
  { category_scores :=
      [("A", csWith ("A") (8/10)), ("B", csWith ("B") (2/10)), ("C", csWith ("C") (5/10))]
    overall_score := 0
    overall_tier := "Optimizing"
    priority_categories := [] }

/-- Claim C5: the prompt builder's area list is sorted by ascending
normalized score, is a permutation of the report's areas in catalog order,
and the sort is stable (restricting to any fixed score value preserves the
catalog insertion order); on the spec's example scores 0.8, 0.2, 0.5 the
areas are addressed in the order 0.2, 0.5, 0.8. -/
theorem C5_areas_sorted_ascending_stable (result : AssessmentReport) :
    List.Sorted scoreLE (sorted_areas result)
    ∧ (sorted_areas result).Perm (result.category_scores.map Prod.snd)
    ∧ (∀ k : ℚ, (sorted_areas result).filter (fun c => decide (c.normalized_score = k))
        = (result.category_scores.map Prod.snd).filter (fun c => decide (c.normalized_score = k)))
    ∧ (sorted_areas exReportC5).map (fun c => c.normalized_score) = [2/10, 5/10, 8/10] := by
  refine ⟨List.sorted_insertionSort scoreLE _, List.perm_insertionSort scoreLE _, ?_, ?_⟩
  · intro k
    exact insertionSort_filter_key k _
  · rw [sorted_areas]
    norm_num [exReportC5, List.insertionSort, List.orderedInsert, scoreLE, csWith]

/- Substring containment, used to state that a snippet is embedded verbatim
   in the assembled prompt. -/

def containsSub (sub : List Char) : List Char → Bool
  | [] => sub.isEmpty
  | c :: rest => sub.isPrefixOf (c :: rest) || containsSub sub rest

def strContainsB (s sub : String) : Bool := containsSub sub.data s.data

theorem containsSub_iff (sub : List Char) (l : List Char) :
    containsSub sub l = true ↔ sub <:+: l := by
  induction l with
  | nil =>
      simp [containsSub, List.isEmpty_iff, List.infix_nil]
  | cons c rest ih =>
      rw [containsSub, Bool.or_eq_true, ih, List.isPrefixOf_iff_prefix]
      exact (List.infix_cons_iff).symm

theorem strContainsB_iff (s t : String) : strContainsB s t = true ↔ t.data <:+: s.data :=
  containsSub_iff t.data s.data

theorem strContainsB_self (s : String) : strContainsB s s = true :=
  (strContainsB_iff s s).mpr (List.infix_refl _)

theorem strContainsB_trans {s t u : String} (h1 : strContainsB s t = true)
    (h2 : strContainsB t u = true) : strContainsB s u = true := by
  rw [strContainsB_iff] at h1 h2 ⊢
  exact h2.trans h1

theorem strContainsB_append_right (u : String) {s t : String} (h : strContainsB s t = true) :
    strContainsB (u ++ s) t = true := by
  rw [strContainsB_iff] at h ⊢
  rw [String.data_append]
  exact h.trans (List.suffix_append _ _).isInfix

theorem strContainsB_append_left (u : String) {s t : String} (h : strContainsB s t = true) :
    strContainsB (s ++ u) t = true := by
  rw [strContainsB_iff] at h ⊢
  rw [String.data_append]
  exact h.trans (List.prefix_append _ _).isInfix

/- Every part of a `"\n".join` appears verbatim in the joined string. -/

theorem intercalate_go_infix (s x : String) :
    ∀ (as : List String) (acc : String), (x.data <:+: acc.data ∨ x ∈ as) →
      x.data <:+: (String.intercalate.go acc s as).data := by
  intro as
  induction as with
  | nil =>
      intro acc h
      rcases h with h | h
      · exact h
      · cases h
  | cons a as ih =>
      intro acc h
      show x.data <:+: (String.intercalate.go (acc ++ s ++ a) s as).data
      apply ih
      rcases h with h | h
      · left
        rw [String.data_append, String.data_append]
        have hpre : acc.data <+: (acc.data ++ s.data) ++ a.data :=
          (List.prefix_append _ _).trans (List.prefix_append _ _)
        exact h.trans hpre.isInfix
      · rcases List.mem_cons.mp h with rfl | h
        · left
          rw [String.data_append]
          exact (List.suffix_append _ _).isInfix
        · right
          exact h

theorem strContainsB_intercalate_mem {x : String} (parts : List String) (h : x ∈ parts) :
    strContainsB (String.intercalate nl parts) x = true := by
  rw [strContainsB_iff]
  cases parts with
  | nil => cases h
  | cons a as =>
      show x.data <:+: (String.intercalate.go a nl as).data
      apply intercalate_go_infix
      rcases List.mem_cons.mp h with rfl | h
      · left
        exact List.infix_refl _
      · right
        exact h

/- Position of an area's section inside the sections produced by the loop. -/

theorem mem_sectionsFrom (cfg : BuilderConfig) (pick : Nat → List String → Nat)
    (catalyst tier_key : String) (cat : CategoryScore) :
    ∀ (l : List CategoryScore) (i0 : Nat), cat ∈ l →
      ∃ i, area_section cfg pick catalyst tier_key i cat ∈ sectionsFrom cfg pick catalyst tier_key i0 l := by
  intro l
  induction l with
  | nil =>
      intro i0 h
      cases h
  | cons b t ih =>
      intro i0 h
      rcases List.mem_cons.mp h with rfl | h
      · exact ⟨i0, List.mem_cons_self _ _⟩
      · obtain ⟨i, hi⟩ := ih (i0 + 1) h
        exact ⟨i, List.mem_cons_of_mem _ hi⟩

theorem mem_numberedRecLines (r : RecItem) :
    ∀ (dd : List RecItem) (j0 : Nat), r ∈ dd →
      ∃ j, ("  " ++ toString (j + 1) ++ ". " ++ r.recommendation) ∈ numberedRecLines j0 dd := by
  intro dd
  induction dd with
  | nil =>
      intro j0 h
      cases h
  | cons b t ih =>
      intro j0 h
      rcases List.mem_cons.mp h with rfl | h
      · exact ⟨j0, List.mem_cons_self _ _⟩
      · obtain ⟨j, hj⟩ := ih (j0 + 1) h
        exact ⟨j, List.mem_cons_of_mem _ hj⟩

/-- Claim C2 (amended): for each area processed by the prompt builder, the
detailed recommendation snippets are looked up under the key derived from
the report's OVERALL tier ("Building" mapped to "Building_Phase"), the
underscore-normalized catalyst, and the area name — not under the area's
own tier; when snippets are found there, the first (at most 3) of them are
embedded verbatim in the prompt with instructions to expand each into a
short paragraph, and when none are found the prompt instead instructs the
generator to produce recommendations from tier+catalyst context alone. -/
theorem C2_snippets_lookup_uses_overall_tier (cfg : BuilderConfig)
    (pick : Nat → List String → Nat) (result : AssessmentReport) (catalyst : String)
    (cat : CategoryScore) (hmem : cat ∈ sorted_areas result) :
    (∀ r ∈ (detailedDataFor cfg.functional_areas (tierKeyOf result.overall_tier)
        (catalystKey catalyst) cat.name).take 3,
      strContainsB (build_prompt cfg pick result catalyst) r.recommendation = true)
    ∧ (detailedDataFor cfg.functional_areas (tierKeyOf result.overall_tier)
        (catalystKey catalyst) cat.name = [] →
      strContainsB (build_prompt cfg pick result catalyst)
        (no_data_sentence cat.tier catalyst) = true) := by
  obtain ⟨i, hi⟩ := mem_sectionsFrom cfg pick catalyst (tierKeyOf result.overall_tier) cat
    (sorted_areas result) 1 hmem
  have hparts : area_section cfg pick catalyst (tierKeyOf result.overall_tier) i cat ∈
      (headerParts catalyst
          (((cfg.catalysts.lookup catalyst).getD {}).definition.getD na_definition)
          ((cfg.whole_business_summaries.lookup ("Mostly " ++ result.overall_tier)).getD evolving_default)
        ++ numberedFocus 1 ((((cfg.catalysts.lookup catalyst).getD {}).primary_focus_areas.getD []).take 5)
        ++ guidelineParts
        ++ sectionsFrom cfg pick catalyst (tierKeyOf result.overall_tier) 1 (sorted_areas result)
        ++ footerParts) := by
    exact List.mem_append.mpr (Or.inl (List.mem_append.mpr (Or.inr hi)))
  have hprompt_sec : strContainsB (build_prompt cfg pick result catalyst)
      (area_section cfg pick catalyst (tierKeyOf result.overall_tier) i cat) = true := by
    simp only [build_prompt]
    exact strContainsB_intercalate_mem _ hparts
  constructor
  · intro r hr
    have hdd_ne : detailedDataFor cfg.functional_areas (tierKeyOf result.overall_tier)
        (catalystKey catalyst) cat.name ≠ [] := by
      intro h
      rw [h] at hr
      cases hr
    have hne' : ¬ ((detailedDataFor cfg.functional_areas (tierKeyOf result.overall_tier)
        (catalystKey catalyst) cat.name).isEmpty = true) := by
      intro hcontra
      exact hdd_ne (List.isEmpty_iff.mp hcontra)
    obtain ⟨j, hline⟩ := mem_numberedRecLines r
      ((detailedDataFor cfg.functional_areas (tierKeyOf result.overall_tier)
        (catalystKey catalyst) cat.name).take 3) 0 hr
    have c1 : strContainsB ("  " ++ toString (j + 1) ++ ". " ++ r.recommendation)
        r.recommendation = true :=
      strContainsB_append_right _ (strContainsB_self _)
    have c2 : strContainsB
        (String.intercalate nl (numberedRecLines 0
          ((detailedDataFor cfg.functional_areas (tierKeyOf result.overall_tier)
            (catalystKey catalyst) cat.name).take 3)))
        ("  " ++ toString (j + 1) ++ ". " ++ r.recommendation) = true :=
      strContainsB_intercalate_mem _ hline
    have c3 : strContainsB (area_section cfg pick catalyst (tierKeyOf result.overall_tier) i cat)
        (String.intercalate nl (numberedRecLines 0
          ((detailedDataFor cfg.functional_areas (tierKeyOf result.overall_tier)
            (catalystKey catalyst) cat.name).take 3))) = true := by
      simp only [area_section]
      rw [if_neg hne']
      apply strContainsB_append_left
      apply strContainsB_append_left
      apply strContainsB_append_left
      apply strContainsB_append_left
      apply strContainsB_append_left
      apply strContainsB_append_left
      exact strContainsB_append_right _ (strContainsB_self _)
    exact strContainsB_trans (strContainsB_trans (strContainsB_trans hprompt_sec c3) c2) c1
  · intro hdd
    have c1 : strContainsB (area_section cfg pick catalyst (tierKeyOf result.overall_tier) i cat)
        (no_data_sentence cat.tier catalyst) = true := by
      simp only [area_section]
      rw [hdd]
      rw [if_pos (show ([] : List RecItem).isEmpty = true from rfl)]
      apply strContainsB_append_left
      apply strContainsB_append_left
      apply strContainsB_append_left
      exact strContainsB_append_right _ (strContainsB_self _)
    exact strContainsB_trans hprompt_sec c1

/- Claim C2 counterexample data: the detailed-recommendations table has an
   entry under the area's own tier ("Responding", the area's recorded tier)
   for this catalyst and area, but nothing under the report's overall tier
   ("Optimizing"). -/

def faC2 : FunctionalAreas :=
  [("Responding", [("Crisis", [("Ops", [{ recommendation := "SNIPPET-REC-TEXT" }])])])]

def cfgC2 : BuilderConfig :=
  { tone_matrix := [], functional_areas := faC2, catalysts := [], whole_business_summaries := [] }

def catOpsC2 : CategoryScore :=
  { name := "Ops", raw_score := 0, normalized_score := 0, tier := "Responding",
    questions_answered := 0, total_questions := 1 }

def rptC2 : AssessmentReport :=
  { category_scores := [("Ops", catOpsC2)], overall_score := 1,
    overall_tier := "Optimizing", priority_categories := [] }

set_option maxRecDepth 16000 in
/-- Counterexample to claim C2 as stated: snippets for this area DO exist in
the detailed-recommendations table under the area's own tier, catalyst and
area name (first conjunct), yet the assembled prompt does not embed the
snippet (second conjunct) and instead carries the no-snippet instruction to
generate from tier+catalyst context alone (third conjunct) — because the
code keys the lookup on the report's overall tier, not the area's tier. -/
theorem C2_counterexample :
    detailedDataFor cfgC2.functional_areas (catOpsC2.tier) (catalystKey ("Crisis")) (catOpsC2.name)
      = [{ recommendation := "SNIPPET-REC-TEXT" }]
    ∧ strContainsB (build_prompt cfgC2 (fun _ _ => 0) rptC2 ("Crisis")) ("SNIPPET-REC-TEXT") = false
    ∧ strContainsB (build_prompt cfgC2 (fun _ _ => 0) rptC2 ("Crisis"))
        (no_data_sentence (catOpsC2.tier) ("Crisis")) = true := by
  decide

/- Claim C2 witness data: one area whose snippets exist under the overall
   tier and one area with no snippets. -/

def faW2 : FunctionalAreas :=
  [("Optimizing", [("Crisis", [("Ops", [{ recommendation := "Keep a weekly cash flow forecast" }])])])]

def cfgW2 : BuilderConfig :=
  { tone_matrix := [], functional_areas := faW2, catalysts := [], whole_business_summaries := [] }

def catOpsW2 : CategoryScore :=
  { name := "Ops", raw_score := 0, normalized_score := 0, tier := "Optimizing",
    questions_answered := 0, total_questions := 1 }

def catHrW2 : CategoryScore :=
  { name := "HR", raw_score := 4, normalized_score := 1, tier := "Optimizing",
    questions_answered := 1, total_questions := 1 }

def rptW2 : AssessmentReport :=
  { category_scores := [("Ops", catOpsW2), ("HR", catHrW2)], overall_score := 1,
    overall_tier := "Optimizing", priority_categories := [] }

set_option maxRecDepth 16000 in
/-- Witness for the amended C2: with snippets present under the overall tier
the snippet text is embedded verbatim in the prompt, and for an area with no
snippets the no-snippet instruction appears. -/
theorem C2_snippets_lookup_uses_overall_tier_witness :
    strContainsB (build_prompt cfgW2 (fun _ _ => 0) rptW2 ("Crisis"))
        (({ recommendation := "Keep a weekly cash flow forecast" } : RecItem).recommendation) = true
    ∧ strContainsB (build_prompt cfgW2 (fun _ _ => 0) rptW2 ("Crisis"))
        (no_data_sentence (catHrW2.tier) ("Crisis")) = true :=
  ⟨(C2_snippets_lookup_uses_overall_tier cfgW2 (fun _ _ => 0) rptW2 ("Crisis") catOpsW2
      (by decide)).1 { recommendation := "Keep a weekly cash flow forecast" } (by decide),
   (C2_snippets_lookup_uses_overall_tier cfgW2 (fun _ _ => 0) rptW2 ("Crisis") catHrW2
      (by decide)).2 (by decide)⟩
